import Mathlib

/-
  Verification development for the rucord Discord gateway client core.

  The definitions below are a shallow embedding of the Rust sources:
    - rucord_ws/src/identify_queue.rs
    - rucord_ws/src/websocket_shard.rs
    - rucord_ws/src/websocket_manager.rs
    - rucord_api_types/src/gateway.rs

  Modelling conventions:
    - `Instant` values and durations are milliseconds on an `Int` timeline.
    - Machine integers are `Nat`/`Int`; where u64 overflow matters it is made
      explicit with `% 2 ^ 64` (release-mode wrapping semantics).
    - tokio's `Semaphore` is modelled by its available-permit count; `acquire`
      on zero permits blocks forever, which the model renders as `none`.
    - Asynchronous effects (frames sent, callbacks invoked) are returned as an
      explicit output list, in invocation order.
-/

namespace Rucord

/-- A JSON value, standing in for serde_json's `Value`. Objects keep their
fields as an ordered association list, mirroring `serde_json::Map`. -/
inductive Json where
  | null
  | bool (b : Bool)
  | num (n : Int)
  | str (s : String)
  | arr (xs : List Json)
  | obj (fields : List (String × Json))

/-- serde_json `Map::remove`: returns the removed value and the remaining map. -/
def mapRemove : List (String × Json) → String → Option (Json × List (String × Json))
  | [], _ => none
  | (k, v) :: rest, key =>
    if k = key then some (v, rest)
    else match mapRemove rest key with
      | none => none
      | some (v', rest') => some (v', (k, v) :: rest')

/-- Deserializing a JSON value as a u64 (`from_value::<u64>`): a
non-negative integer below 2^64 (the bound written as a literal). -/
def Json.asU64 : Json → Option Nat
  | .num (Int.ofNat m) => if m < 18446744073709551616 then some m else none
  | _ => none

/-- Deserializing a JSON value as an i64 (`from_value::<i64>`): an integer in
`[-2^63, 2^63)` (the bound written as a literal; `negSucc m` is `-(m+1)`). -/
def Json.asI64 : Json → Option Int
  | .num (Int.ofNat m) => if m < 9223372036854775808 then some (Int.ofNat m) else none
  | .num (Int.negSucc m) => if m < 9223372036854775808 then some (Int.negSucc m) else none
  | _ => none

/-- Deserializing a JSON value as a bool. -/
def Json.asBool : Json → Option Bool
  | .bool b => some b
  | _ => none

/-- Deserializing a JSON value as a String. -/
def Json.asString : Json → Option String
  | .str s => some s
  | _ => none

/-- Deserializing a JSON value as a `JsonMap`. -/
def Json.asMap : Json → Option (List (String × Json))
  | .obj fields => some fields
  | _ => none

/-- Field lookup on a serialized JSON object (no removal). -/
def Json.field : Json → String → Option Json
  | .obj fields, key => (fields.find? (fun kv => kv.1 = key)).map (·.2)
  | _, _ => none

/- ===== IdentifyQueue (rucord_ws/src/identify_queue.rs) ===== -/

/-- `IdentifyState { remaining: u64, reset_time: Instant }`. -/
structure IdentifyState where
  remaining : Nat
  reset_time : Int
deriving DecidableEq

/-- `IdentifyQueue`: the tokio `Semaphore` is modelled by its number of
available permits; `identify_state` by the state record (the mutex is a
no-op for the serialized model). -/
structure IdentifyQueue where
  permits : Nat
  state : IdentifyState
deriving DecidableEq

/-- `IdentifyQueue::FIVE_SECOND` in milliseconds. -/
def FIVE_SECOND : Int := 5000

/-- `IdentifyQueue::new`: one semaphore permit, `remaining = 0`,
`reset_time = Instant::now() - FIVE_SECOND`. -/
def IdentifyQueue.new (now : Int) : IdentifyQueue :=
  { permits := 1, state := { remaining := 0, reset_time := now - FIVE_SECOND } }

/-- u64 wrapping decrement, the release-mode semantics of `lock.remaining -= 1`
(the theorems below only use it with `remaining ≥ 1`, where debug and release
builds agree). -/
def u64_sub_one (n : Nat) : Nat := (n + (2 ^ 64 - 1)) % 2 ^ 64

/-- `IdentifyQueue::wait_for_identify`, run by the caller that is at the head
of the semaphore queue. `maxConcurrency` is the value read from
`gateway_info.session_start_limit.max_concurrency` at refill time, and `now`
the instant the caller starts inspecting the state.

Returns `none` when `acquire` can never succeed (no permits available: the
caller blocks forever). Otherwise returns the queue afterwards and the instant
the slot is released to the caller (after the rate-limit sleep, if any).
The final `permit.forget()` is the decrement of `permits` with no restore. -/
def wait_for_identify (q : IdentifyQueue) (maxConcurrency : Nat) (now : Int) :
    Option (IdentifyQueue × Int) :=
  match q.permits with
  | 0 => none
  | p + 1 =>
    if q.state.remaining = 0 then
      if now - q.state.reset_time < FIVE_SECOND then
        some ({ permits := p,
                state := { remaining := u64_sub_one maxConcurrency,
                           reset_time := now + (FIVE_SECOND - (now - q.state.reset_time)) } },
              now + (FIVE_SECOND - (now - q.state.reset_time)))
      else
        some ({ permits := p,
                state := { remaining := u64_sub_one maxConcurrency, reset_time := now } },
              now)
    else
      some ({ permits := p,
              state := { remaining := u64_sub_one q.state.remaining,
                         reset_time := q.state.reset_time } },
            now)

/-- Runs a schedule of callers through the queue in semaphore (FIFO) order:
each element of `arrivals` is the instant a caller reaches the head of the
queue. Returns the slot release instants of the callers that complete;
a caller whose `acquire` blocks forever contributes nothing. -/
def runQueue (q : IdentifyQueue) (maxConcurrency : Nat) : List Int → List Int
  | [] => []
  | t :: ts =>
    match wait_for_identify q maxConcurrency t with
    | none => runQueue q maxConcurrency ts
    | some (q', r) => r :: runQueue q' maxConcurrency ts

/-- The number of slot releases falling inside the 5-second window `[w, w+5s)`. -/
def countWindow (w : Int) (releases : List Int) : Nat :=
  (releases.filter (fun r => decide (w ≤ r ∧ r < w + FIVE_SECOND))).length

/- ===== Gateway payloads (rucord_api_types/src/gateway.rs) ===== -/

/-- `GatewayOpcode` (discriminants per the Rust enum). -/
inductive GatewayOpcode where
  | Dispatch
  | Heartbeat
  | Identify
  | PresenceUpdate
  | VoiceStateUpdate
  | Resume
  | Reconnect
  | RequestGuildMembers
  | InvalidSession
  | Hello
  | HeartbeatAck
deriving DecidableEq

/-- The numeric value of each opcode (`GatewayOpcode as u64`). -/
def GatewayOpcode.toU64 : GatewayOpcode → Nat
  | .Dispatch => 0
  | .Heartbeat => 1
  | .Identify => 2
  | .PresenceUpdate => 3
  | .VoiceStateUpdate => 4
  | .Resume => 6
  | .Reconnect => 7
  | .RequestGuildMembers => 8
  | .InvalidSession => 9
  | .Hello => 10
  | .HeartbeatAck => 11

/-- `FromPrimitive::from_u64` for `GatewayOpcode`. -/
def GatewayOpcode.fromU64 : Nat → Option GatewayOpcode
  | 0 => some .Dispatch
  | 1 => some .Heartbeat
  | 2 => some .Identify
  | 3 => some .PresenceUpdate
  | 4 => some .VoiceStateUpdate
  | 6 => some .Resume
  | 7 => some .Reconnect
  | 8 => some .RequestGuildMembers
  | 9 => some .InvalidSession
  | 10 => some .Hello
  | 11 => some .HeartbeatAck
  | _ => none

/-- `GatewayDispatchEvents`: every event name the strum `EnumString` derive
recognizes (SCREAMING_SNAKE_CASE). -/
inductive GatewayDispatchEvents where
  | ApplicationCommandPermissionsUpdate
  | ChannelCreate
  | ChannelDelete
  | ChannelPinsUpdate
  | ChannelUpdate
  | GuildBanAdd
  | GuildBanRemove
  | GuildCreate
  | GuildDelete
  | GuildEmojisUpdate
  | GuildIntegrationsUpdate
  | GuildMemberAdd
  | GuildMemberRemove
  | GuildMembersChunk
  | GuildMemberUpdate
  | GuildRoleCreate
  | GuildRoleDelete
  | GuildRoleUpdate
  | GuildStickersUpdate
  | GuildUpdate
  | IntegrationCreate
  | IntegrationDelete
  | IntegrationUpdate
  | InteractionCreate
  | InviteCreate
  | InviteDelete
  | MessageCreate
  | MessageDelete
  | MessageDeleteBulk
  | MessageReactionAdd
  | MessageReactionRemove
  | MessageReactionRemoveAll
  | MessageReactionRemoveEmoji
  | MessageUpdate
  | PresenceUpdate
  | StageInstanceCreate
  | StageInstanceDelete
  | StageInstanceUpdate
  | Ready
  | Resumed
  | ThreadCreate
  | ThreadDelete
  | ThreadListSync
  | ThreadMemberUpdate
  | ThreadMembersUpdate
  | ThreadUpdate
  | TypingStart
  | UserUpdate
  | VoiceServerUpdate
  | VoiceStateUpdate
  | WebhooksUpdate
  | GuildScheduledEventCreate
  | GuildScheduledEventUpdate
  | GuildScheduledEventDelete
  | GuildScheduledEventUserAdd
  | GuildScheduledEventUserRemove
  | AutoModerationRuleCreate
  | AutoModerationRuleUpdate
  | AutoModerationRuleDelete
  | AutoModerationActionExecution
  | GuildAuditLogEntryCreate
deriving DecidableEq

/-- `GatewayDispatchEvents::from_str` (strum, `serialize_all = SCREAMING_SNAKE_CASE`). -/
def event_from_str : String → Option GatewayDispatchEvents
  | "APPLICATION_COMMAND_PERMISSIONS_UPDATE" => some .ApplicationCommandPermissionsUpdate
  | "CHANNEL_CREATE" => some .ChannelCreate
  | "CHANNEL_DELETE" => some .ChannelDelete
  | "CHANNEL_PINS_UPDATE" => some .ChannelPinsUpdate
  | "CHANNEL_UPDATE" => some .ChannelUpdate
  | "GUILD_BAN_ADD" => some .GuildBanAdd
  | "GUILD_BAN_REMOVE" => some .GuildBanRemove
  | "GUILD_CREATE" => some .GuildCreate
  | "GUILD_DELETE" => some .GuildDelete
  | "GUILD_EMOJIS_UPDATE" => some .GuildEmojisUpdate
  | "GUILD_INTEGRATIONS_UPDATE" => some .GuildIntegrationsUpdate
  | "GUILD_MEMBER_ADD" => some .GuildMemberAdd
  | "GUILD_MEMBER_REMOVE" => some .GuildMemberRemove
  | "GUILD_MEMBERS_CHUNK" => some .GuildMembersChunk
  | "GUILD_MEMBER_UPDATE" => some .GuildMemberUpdate
  | "GUILD_ROLE_CREATE" => some .GuildRoleCreate
  | "GUILD_ROLE_DELETE" => some .GuildRoleDelete
  | "GUILD_ROLE_UPDATE" => some .GuildRoleUpdate
  | "GUILD_STICKERS_UPDATE" => some .GuildStickersUpdate
  | "GUILD_UPDATE" => some .GuildUpdate
  | "INTEGRATION_CREATE" => some .IntegrationCreate
  | "INTEGRATION_DELETE" => some .IntegrationDelete
  | "INTEGRATION_UPDATE" => some .IntegrationUpdate
  | "INTERACTION_CREATE" => some .InteractionCreate
  | "INVITE_CREATE" => some .InviteCreate
  | "INVITE_DELETE" => some .InviteDelete
  | "MESSAGE_CREATE" => some .MessageCreate
  | "MESSAGE_DELETE" => some .MessageDelete
  | "MESSAGE_DELETE_BULK" => some .MessageDeleteBulk
  | "MESSAGE_REACTION_ADD" => some .MessageReactionAdd
  | "MESSAGE_REACTION_REMOVE" => some .MessageReactionRemove
  | "MESSAGE_REACTION_REMOVE_ALL" => some .MessageReactionRemoveAll
  | "MESSAGE_REACTION_REMOVE_EMOJI" => some .MessageReactionRemoveEmoji
  | "MESSAGE_UPDATE" => some .MessageUpdate
  | "PRESENCE_UPDATE" => some .PresenceUpdate
  | "STAGE_INSTANCE_CREATE" => some .StageInstanceCreate
  | "STAGE_INSTANCE_DELETE" => some .StageInstanceDelete
  | "STAGE_INSTANCE_UPDATE" => some .StageInstanceUpdate
  | "READY" => some .Ready
  | "RESUMED" => some .Resumed
  | "THREAD_CREATE" => some .ThreadCreate
  | "THREAD_DELETE" => some .ThreadDelete
  | "THREAD_LIST_SYNC" => some .ThreadListSync
  | "THREAD_MEMBER_UPDATE" => some .ThreadMemberUpdate
  | "THREAD_MEMBERS_UPDATE" => some .ThreadMembersUpdate
  | "THREAD_UPDATE" => some .ThreadUpdate
  | "TYPING_START" => some .TypingStart
  | "USER_UPDATE" => some .UserUpdate
  | "VOICE_SERVER_UPDATE" => some .VoiceServerUpdate
  | "VOICE_STATE_UPDATE" => some .VoiceStateUpdate
  | "WEBHOOKS_UPDATE" => some .WebhooksUpdate
  | "GUILD_SCHEDULED_EVENT_CREATE" => some .GuildScheduledEventCreate
  | "GUILD_SCHEDULED_EVENT_UPDATE" => some .GuildScheduledEventUpdate
  | "GUILD_SCHEDULED_EVENT_DELETE" => some .GuildScheduledEventDelete
  | "GUILD_SCHEDULED_EVENT_USER_ADD" => some .GuildScheduledEventUserAdd
  | "GUILD_SCHEDULED_EVENT_USER_REMOVE" => some .GuildScheduledEventUserRemove
  | "AUTO_MODERATION_RULE_CREATE" => some .AutoModerationRuleCreate
  | "AUTO_MODERATION_RULE_UPDATE" => some .AutoModerationRuleUpdate
  | "AUTO_MODERATION_RULE_DELETE" => some .AutoModerationRuleDelete
  | "AUTO_MODERATION_ACTION_EXECUTION" => some .AutoModerationActionExecution
  | "GUILD_AUDIT_LOG_ENTRY_CREATE" => some .GuildAuditLogEntryCreate
  | _ => none

/-- `IdentifyConnectionProperties`. -/
structure IdentifyConnectionProperties where
  os : String
  browser : String
  device : String

/-- `PresenceStateType`. -/
inductive PresenceStateType where
  | Online
  | Dnd
  | Idle
  | Invisible
  | Offline

/-- The serde `Serialize` derive on the fieldless `PresenceStateType` enum
emits the variant name (the strum lowercase attribute applies to the strum
traits only). -/
def PresenceStateType.serdeName : PresenceStateType → String
  | .Online => "Online"
  | .Dnd => "Dnd"
  | .Idle => "Idle"
  | .Invisible => "Invisible"
  | .Offline => "Offline"

/-- `UpdatePresenceData` (`activities` kept as raw JSON values, as in the
source's `Vec<Value>`). -/
structure UpdatePresenceData where
  since : Option Nat
  activities : List Json
  status : PresenceStateType
  afk : Bool

/-- `IdentifyData`. -/
structure IdentifyData where
  token : String
  properties : IdentifyConnectionProperties
  compress : Option Bool
  large_threshold : Option Nat
  shard : Option (Nat × Nat)
  presence : Option UpdatePresenceData
  intents : Nat

/-- `ResumeData`. -/
structure ResumeData where
  token : String
  session_id : String
  seq : Int

/-- `RequestGuildMembersData` (`Snowflake = String`). -/
structure RequestGuildMembersData where
  guild_id : String
  query : Option String
  limit : Nat
  presences : Option Bool
  user_ids : Option (List String)
  nonce : Option String

/-- `VoiceStateUpdateData`. -/
structure VoiceStateUpdateData where
  guild_id : String
  channel_id : String
  self_mute : Bool
  self_deaf : Bool

/-- `ReadyData`. The `user` and `application` payloads are carried as raw
JSON here; none of the gateway-core code inspects them. -/
structure ReadyData where
  v : Nat
  user : Json
  guilds : List Json
  session_id : String
  resume_gateway_url : String
  shard : Option (Nat × Nat)
  application : Json

/-- `DispatchPayload`. -/
inductive DispatchPayload where
  | Ready (data : ReadyData)
  | Resume
  | ApplicationCommandPermissionsUpdate (m : List (String × Json))
  | AutoModerationRuleCreate (m : List (String × Json))
  | AutoModerationRuleUpdate (m : List (String × Json))
  | AutoModerationRuleDelete (m : List (String × Json))
  | AutoModerationActionExecution (m : List (String × Json))
  | ChannelCreate (m : List (String × Json))
  | ChannelUpdate (m : List (String × Json))
  | ChannelDelete (m : List (String × Json))
  | ChannelPinsUpdate (m : List (String × Json))
  | ThreadCreate (m : List (String × Json))
  | ThreadUpdate (m : List (String × Json))
  | ThreadDelete (m : List (String × Json))
  | ThreadListSync (m : List (String × Json))
  | ThreadMemberUpdate (m : List (String × Json))
  | ThreadMembersUpdate (m : List (String × Json))
  | GuildCreate (m : List (String × Json))
  | GuildUpdate (m : List (String × Json))
  | GuildDelete (m : List (String × Json))
  | GuildAuditLogEntryCreate (m : List (String × Json))
  | GuildBanAdd (m : List (String × Json))
  | GuildBanRemove (m : List (String × Json))
  | GuildEmojisUpdate (m : List (String × Json))
  | GuildStickersUpdate (m : List (String × Json))
  | GuildIntegrationsUpdate (m : List (String × Json))
  | GuildMemberAdd (m : List (String × Json))
  | GuildMemberRemove (m : List (String × Json))
  | GuildMemberUpdate (m : List (String × Json))
  | GuildMembersChunk (m : List (String × Json))
  | GuildRoleCreate (m : List (String × Json))
  | GuildRoleUpdate (m : List (String × Json))
  | GuildRoleDelete (m : List (String × Json))
  | GuildScheduledEventCreate (m : List (String × Json))
  | GuildScheduledEventUpdate (m : List (String × Json))
  | GuildScheduledEventDelete (m : List (String × Json))
  | GuildScheduledEventUserAdd (m : List (String × Json))
  | GuildScheduledEventUserRemove (m : List (String × Json))
  | InteractionCreate (m : List (String × Json))
  | IntegrationUpdate (m : List (String × Json))
  | IntegrationDelete (m : List (String × Json))
  | InviteCreate (m : List (String × Json))
  | InviteDelete (m : List (String × Json))
  | MessageCreate (m : List (String × Json))
  | MessageUpdate (m : List (String × Json))
  | MessageDelete (m : List (String × Json))
  | MessageDeleteBulk (m : List (String × Json))
  | MessageReactionAdd (m : List (String × Json))
  | MessageReactionRemove (m : List (String × Json))
  | MessageReactionRemoveAll (m : List (String × Json))
  | MessageReactionRemoveEmoji (m : List (String × Json))
  | PresenceUpdate (m : List (String × Json))
  | StageInstanceCreate (m : List (String × Json))
  | StageInstanceUpdate (m : List (String × Json))
  | StageInstanceDelete (m : List (String × Json))
  | TypingStart (m : List (String × Json))
  | UserUpdate (m : List (String × Json))
  | VoiceStateUpdate (m : List (String × Json))
  | VoiceServerUpdate (m : List (String × Json))
  | WebhooksUpdate (m : List (String × Json))
  | Unknown (t : String) (m : List (String × Json))

/-- `GatewaySendPayload`. `Heartbeat` carries the optional last sequence
(the shard feeds `session.sequence` into it, so it is an `Int` here, matching
the `i64` dispatch sequence). -/
inductive GatewaySendPayload where
  | Identify (d : IdentifyData)
  | Resume (d : ResumeData)
  | Heartbeat (d : Option Int)
  | RequestGuildMembers (d : RequestGuildMembersData)
  | VoiceStateUpdate (d : VoiceStateUpdateData)
  | UpdatePresence (d : UpdatePresenceData)

/-- `GatewayReceivePayload`. -/
inductive GatewayReceivePayload where
  | Hello (heartbeat_interval : Nat)
  | HeartbeatRequest
  | HeartbeatAck
  | InvalidSession (can_resume : Bool)
  | Reconnect
  | Dispatch (d : Int × DispatchPayload)
  | UnknownOp (op : Nat) (m : List (String × Json))

/-- JSON array deserialization helper (`Vec<Value>`). -/
def Json.asArr : Json → Option (List Json)
  | .arr xs => some xs
  | _ => none

/-- serde serialization of an `Option` field without a skip attribute:
`None` becomes `null`. -/
def optJson (f : α → Json) : Option α → Json
  | none => Json.null
  | some a => f a

/-- Derived serde serialization of `IdentifyConnectionProperties`. -/
def IdentifyConnectionProperties.toJson (p : IdentifyConnectionProperties) : Json :=
  .obj [("os", .str p.os), ("browser", .str p.browser), ("device", .str p.device)]

/-- Derived serde serialization of `UpdatePresenceData`. -/
def UpdatePresenceData.toJson (d : UpdatePresenceData) : Json :=
  .obj [("since", optJson (fun n => .num n) d.since),
        ("activities", .arr d.activities),
        ("status", .str d.status.serdeName),
        ("afk", .bool d.afk)]

/-- serde serialization of a `(u64, u64)` shard tuple: a two-element array. -/
def shardToJson (s : Nat × Nat) : Json := .arr [.num s.1, .num s.2]

/-- Derived serde serialization of `IdentifyData` (every field serialized,
declaration order; the `serde(default)` attributes affect deserialization only). -/
def IdentifyData.toJson (d : IdentifyData) : Json :=
  .obj [("token", .str d.token),
        ("properties", d.properties.toJson),
        ("compress", optJson Json.bool d.compress),
        ("large_threshold", optJson (fun n => .num n) d.large_threshold),
        ("shard", optJson shardToJson d.shard),
        ("presence", optJson UpdatePresenceData.toJson d.presence),
        ("intents", .num d.intents)]

/-- Derived serde serialization of `ResumeData`. -/
def ResumeData.toJson (d : ResumeData) : Json :=
  .obj [("token", .str d.token), ("session_id", .str d.session_id), ("seq", .num d.seq)]

/-- Derived serde serialization of `RequestGuildMembersData`
(`skip_serializing_if = Option::is_none` on `query`, `presences`, `user_ids`,
`nonce`). -/
def RequestGuildMembersData.toJson (d : RequestGuildMembersData) : Json :=
  .obj ([("guild_id", Json.str d.guild_id)]
    ++ (match d.query with | none => [] | some q => [("query", Json.str q)])
    ++ [("limit", Json.num d.limit)]
    ++ (match d.presences with | none => [] | some p => [("presences", Json.bool p)])
    ++ (match d.user_ids with
        | none => []
        | some ids => [("user_ids", Json.arr (ids.map Json.str))])
    ++ (match d.nonce with | none => [] | some n => [("nonce", Json.str n)]))

/-- Derived serde serialization of `VoiceStateUpdateData`. -/
def VoiceStateUpdateData.toJson (d : VoiceStateUpdateData) : Json :=
  .obj [("guild_id", .str d.guild_id), ("channel_id", .str d.channel_id),
        ("self_mute", .bool d.self_mute), ("self_deaf", .bool d.self_deaf)]

/-- The opcode written by `impl Serialize for GatewaySendPayload`. -/
def GatewaySendPayload.op : GatewaySendPayload → Nat
  | .Identify _ => GatewayOpcode.Identify.toU64
  | .Resume _ => GatewayOpcode.Resume.toU64
  | .Heartbeat _ => GatewayOpcode.Heartbeat.toU64
  | .RequestGuildMembers _ => GatewayOpcode.RequestGuildMembers.toU64
  | .VoiceStateUpdate _ => GatewayOpcode.VoiceStateUpdate.toU64
  | .UpdatePresence _ => GatewayOpcode.PresenceUpdate.toU64

/-- The `d` field written by `impl Serialize for GatewaySendPayload`. -/
def GatewaySendPayload.dataJson : GatewaySendPayload → Json
  | .Identify d => d.toJson
  | .Resume d => d.toJson
  | .Heartbeat d => optJson (fun n => .num n) d
  | .RequestGuildMembers d => d.toJson
  | .VoiceStateUpdate d => d.toJson
  | .UpdatePresence d => d.toJson

/-- `impl Serialize for GatewaySendPayload`: a two-field struct
`{op: <code>, d: <data>}`. -/
def serialize_send (p : GatewaySendPayload) : Json :=
  .obj [("op", .num p.op), ("d", p.dataJson)]

/-- The abort conditions of `GatewayReceivePayload::unpack` and
`DispatchPayload::from_payload`: `unwrap` on a non-object frame, the
`to_value!` macro's `expect`s, the `unreachable!("not receive op")` arm, and
the `unimplemented!()` arm for recognized-but-unhandled dispatch events. -/
inductive UnpackPanic where
  | invalidJson
  | missingField (name : String)
  | invalidFieldType (name : String)
  | notReceiveOp
  | unimplementedEvent (e : GatewayDispatchEvents)
deriving DecidableEq

/-- `from_value::<ReadyData>` on the `d` payload of a READY dispatch.
The `user`/`application` values are retained as raw JSON (their nested
`UserObject` validation is not needed by any gateway-core path modelled here);
the remaining fields are checked per the serde derive. -/
def decode_ready_data (j : Json) : Option ReadyData :=
  match j with
  | .obj _ => do
    let v ← (j.field "v").bind Json.asU64
    if v < 256 then
      let user ← j.field "user"
      let guilds ← (j.field "guilds").bind Json.asArr
      let session_id ← (j.field "session_id").bind Json.asString
      let resume_gateway_url ← (j.field "resume_gateway_url").bind Json.asString
      let shard ←
        match j.field "shard" with
        | none => some none
        | some .null => some none
        | some (.arr [a, b]) => do
          let a ← a.asU64
          let b ← b.asU64
          pure (some (a, b))
        | some _ => none
      let application ← j.field "application"
      pure { v, user, guilds, session_id, resume_gateway_url, shard, application }
    else none
  | _ => none

/-- `DispatchPayload::from_payload`: extracts `s` and `t` (removing them from
the map), then builds the payload — only READY and RESUMED are implemented;
every other recognized event hits `unimplemented!()`. -/
def from_payload (payload : List (String × Json)) :
    Except UnpackPanic (Int × DispatchPayload) :=
  match mapRemove payload "s" with
  | none => .error (.missingField "s")
  | some (sv, payload) =>
    match sv.asI64 with
    | none => .error (.invalidFieldType "s")
    | some s =>
      match mapRemove payload "t" with
      | none => .error (.missingField "t")
      | some (tv, payload) =>
        match tv.asString with
        | none => .error (.invalidFieldType "t")
        | some t =>
          match event_from_str t with
          | none => .ok (s, .Unknown t payload)
          | some e =>
            match e with
            | .Ready =>
              match mapRemove payload "d" with
              | none => .error (.missingField "d")
              | some (dv, _) =>
                match decode_ready_data dv with
                | none => .error (.invalidFieldType "d")
                | some data => .ok (s, .Ready data)
            | .Resumed => .ok (s, .Resume)
            | e => .error (.unimplementedEvent e)

/-- `GatewayReceivePayload::unpack`, at the JSON-value level (the textual
parse `Value::from_str` composed with `serde_json::to_string` is the identity
on well-formed frames, so the model works on the JSON tree). Panics of the
original become `.error` values. -/
def unpack (j : Json) : Except UnpackPanic GatewayReceivePayload :=
  match j with
  | .obj fields =>
    match mapRemove fields "op" with
    | none => .error (.missingField "op")
    | some (opv, payload) =>
      match opv.asU64 with
      | none => .error (.invalidFieldType "op")
      | some op =>
        match GatewayOpcode.fromU64 op with
        | none => .ok (.UnknownOp op payload)
        | some opc =>
          match opc with
          | .Hello =>
            match mapRemove payload "d" with
            | none => .error (.missingField "d")
            | some (dv, _) =>
              match dv.asMap with
              | none => .error (.invalidFieldType "d")
              | some d =>
                match mapRemove d "heartbeat_interval" with
                | none => .error (.missingField "heartbeat_interval")
                | some (iv, _) =>
                  match iv.asU64 with
                  | none => .error (.invalidFieldType "heartbeat_interval")
                  | some i => .ok (.Hello i)
          | .Heartbeat => .ok .HeartbeatRequest
          | .HeartbeatAck => .ok .HeartbeatAck
          | .InvalidSession =>
            match mapRemove payload "d" with
            | none => .error (.missingField "d")
            | some (dv, _) =>
              match dv.asBool with
              | none => .error (.invalidFieldType "d")
              | some b => .ok (.InvalidSession b)
          | .Reconnect => .ok .Reconnect
          | .Dispatch => (from_payload payload).map (fun sp => .Dispatch sp)
          | _ => .error .notReceiveOp
  | _ => .error .invalidJson

/- ===== Shard state machine (rucord_ws/src/websocket_shard.rs) ===== -/

/-- `WebSocketShardStatus`. -/
inductive WebSocketShardStatus where
  | Ready
  | Resuming
  | Connecting
  | Idle
deriving DecidableEq

/-- `Session` (rucord_ws/src/websocket_manager.rs). `sequence` is declared
`u64` there while the dispatch sequence feeding it is `i64`; the shard file
treats them as one type, so the model uses `Int`. -/
structure Session where
  id : String
  shard_id : Nat
  resume_url : String
  shard_count : Nat
  sequence : Int
deriving DecidableEq

/-- `WebSocketWorkerOptions`, with the `Arc<Mutex<GatewayBotObject>>` collapsed
to the two fields the shard reads from it (`url`, `shards`); the identify
queue is modelled separately (see `wait_for_identify`). -/
structure WebSocketWorkerOptions where
  gateway_url : String
  gateway_shards : Nat
  token : String
  identify_properties : IdentifyConnectionProperties
  intents : Nat

/-- The mutable state of `WebSocketShard` (channels and the event-handler
handle live outside the state; callbacks appear as outputs). -/
structure WebSocketShard where
  id : Nat
  status : WebSocketShardStatus
  session : Option Session
  connection : Option Unit
  started_at : Int
  last_heartbeat : Int
  heartbeat_interval : Int
  next_heartbeat : Int
  is_ack : Bool

/-- `WebSocketShard::new` (both `Instant::now()` reads modelled as `now`). -/
def WebSocketShard.new (id : Nat) (now : Int) : WebSocketShard :=
  { id
    status := .Idle
    connection := none
    started_at := now
    last_heartbeat := now
    heartbeat_interval := -1
    next_heartbeat := 0
    session := none
    is_ack := true }

/-- Observable effects of a shard operation, in invocation order. Debug
logging is elided. `connectRequested` marks the points where the original
code re-enters `connect()` (`destroy` with a recover value, and the
`resume()` fallback). -/
inductive ShardOutput where
  | send (p : GatewaySendPayload)
  | readyCallback (d : ReadyData)
  | resumedCallback
  | dispatchCallback (p : DispatchPayload)
  | connectRequested
deriving Inhabited

/-- `i64 as u128` (always non-negative; the modulus is 2^128 as a literal). -/
def i64_as_u128 (n : Int) : Int := n.emod 340282366920938463463374607431768211456

/-- `i64 as u64` (always non-negative; the modulus is 2^64 as a literal). -/
def i64_as_u64 (n : Int) : Int := n.emod 18446744073709551616

/-- `WebSocketShard::heartbeat(requested)`. `now` models `Instant::now()`;
`last_heartbeat.elapsed()` is `now - last_heartbeat`. When due, sends a
Heartbeat with the current session sequence, records the send time, resets
`next_heartbeat` to the interval if it differs, and sets `is_ack := false`.
Nothing in it reads `is_ack` or destroys the connection. -/
def heartbeat (st : WebSocketShard) (requested : Bool) (now : Int) :
    WebSocketShard × List ShardOutput :=
  if ¬requested ∧ now - st.last_heartbeat ≤ st.next_heartbeat then (st, [])
  else
    ({ st with
        last_heartbeat := now
        next_heartbeat :=
          if st.next_heartbeat ≠ i64_as_u128 st.heartbeat_interval then
            i64_as_u64 st.heartbeat_interval
          else st.next_heartbeat
        is_ack := false },
     [ShardOutput.send (.Heartbeat (st.session.map (·.sequence)))])

/-- `WebSocketShard::destroy(info, recover)`, state part (the close frame
only feeds debug logging; a successful socket close is assumed — a failed
close leaves the state untouched and errors out). Early-returns when the
shard is Idle or has no connection; otherwise clears the session on
`recover = Some(false)`, resets heartbeat state, drops the connection, goes
Idle, and — when `recover.is_some()` — re-enters `connect()`. -/
def destroy (st : WebSocketShard) (recover : Option Bool) :
    WebSocketShard × List ShardOutput :=
  if st.status = .Idle then (st, [])
  else
    match st.connection with
    | none => (st, [])
    | some _ =>
      let st := { st with
        session := if recover = some false then none else st.session
        is_ack := true
        heartbeat_interval := -1
        connection := none
        status := .Idle }
      (st, if recover.isSome then [.connectRequested] else [])

/-- `WebSocketShard::resume`: with a connection and a session, set status
`Resuming` and send Resume `{token, session_id, seq}`; otherwise fall back
to `connect()` (marked as `connectRequested`). -/
def resume (opts : WebSocketWorkerOptions) (st : WebSocketShard) :
    WebSocketShard × List ShardOutput :=
  match st.connection, st.session with
  | some _, some sess =>
    ({ st with status := .Resuming },
     [.send (.Resume { token := opts.token, session_id := sess.id, seq := sess.sequence })])
  | _, _ => (st, [.connectRequested])

/-- The tail of the Dispatch handler: `if seq > session.sequence` advance the
session's `last_sequence` (a no-op without a session). -/
def advance_sequence (st : WebSocketShard) (s : Int) : WebSocketShard :=
  match st.session with
  | some sess =>
    if s > sess.sequence then { st with session := some { sess with sequence := s } }
    else st
  | none => st

/-- The Session created by the READY arm of the Dispatch handler. -/
def session_of_ready (opts : WebSocketWorkerOptions) (id : Nat) (s : Int)
    (data : ReadyData) : Session :=
  { id := data.session_id
    resume_url := data.resume_gateway_url
    sequence := s
    shard_count := opts.gateway_shards
    shard_id := id }

/-- `WebSocketShard::resolve_event`. `now` models `Instant::now()` inside the
HeartbeatRequest-triggered `heartbeat(true)`; `jitter` models
`heartbeat_interval as f64 * rand::thread_rng().gen::<f64>()` cast to u64
(the sampled first-heartbeat delay). -/
def resolve_event (opts : WebSocketWorkerOptions) (now jitter : Int)
    (st : WebSocketShard) (e : GatewayReceivePayload) :
    WebSocketShard × List ShardOutput :=
  match e with
  | .Hello heartbeat_interval =>
    ({ st with heartbeat_interval := (heartbeat_interval : Int), next_heartbeat := jitter }, [])
  | .HeartbeatRequest => heartbeat st true now
  | .HeartbeatAck => ({ st with is_ack := true }, [])
  | .InvalidSession can_resume =>
    if can_resume ∧ st.session.isSome then resume opts st
    else destroy st (some false)
  | .Reconnect => destroy st (some true)
  | .Dispatch (s, payload) =>
    match payload with
    | .Ready data =>
      (advance_sequence
        (if st.session.isNone then
          { st with session := some (session_of_ready opts st.id s data) }
         else st) s,
       [.readyCallback data, .dispatchCallback payload])
    | .Resume =>
      (advance_sequence { st with status := .Ready } s,
       [.resumedCallback, .dispatchCallback payload])
    | _ => (advance_sequence st s, [.dispatchCallback payload])
  | .UnknownOp _ _ => (st, [])

/-- `ShardError` (rucord_ws/src/error.rs; payloads reduced to plain data). -/
inductive ShardError where
  | NotIdle
  | Tungstenite (reason : String)
  | Closed (code : Option Nat) (reason : Option String)
deriving DecidableEq

/-- The entry of `WebSocketShard::connect`: rejects a non-Idle shard with
`NotIdle`; otherwise records `started_at`, moves to `Connecting`, and opens
the WebSocket to `options.gateway_info.url` — the capacity URL,
unconditionally (the session's `resume_url` is never consulted). Returns the
state at the `WebSocket::create` call together with the URL dialed. -/
def connect_start (opts : WebSocketWorkerOptions) (st : WebSocketShard) (now : Int) :
    Except ShardError (WebSocketShard × String) :=
  if st.status ≠ .Idle then .error .NotIdle
  else .ok ({ st with started_at := now, status := .Connecting }, opts.gateway_url)

/-- The successful continuation of the open: `self.connection = Some(connection)`.
(On a failed open the error propagates with the state unchanged — still
`Connecting`, still without a connection.) -/
def connect_open_ok (st : WebSocketShard) : WebSocketShard :=
  { st with connection := some () }

/-- The `IdentifyData` built by `WebSocketShard::identify` (the
`..Default::default()` fields are `None`). -/
def identify_data (opts : WebSocketWorkerOptions) (shard_id : Nat) : IdentifyData :=
  { token := opts.token
    properties := opts.identify_properties
    compress := none
    large_threshold := none
    shard := some (shard_id, opts.gateway_shards)
    presence := none
    intents := opts.intents }

/-- `WebSocketShard::identify`, run by `connect` as soon as a HELLO payload
arrives: awaits an IdentifyQueue slot, then sends Identify. It mutates no
shard state and never consults `session` — it runs whether or not a Session
exists. -/
def identify (opts : WebSocketWorkerOptions) (st : WebSocketShard) :
    WebSocketShard × List ShardOutput :=
  (st, [.send (.Identify (identify_data opts st.id))])

/-- The atomic state transitions the shard code can perform between
suspension points, with their source-side guards:
  - `connect_start`: only from Idle (then the socket open runs; a failed open
    changes nothing further);
  - `open_ok`: the open completing, always immediately after the shard went
    Connecting;
  - `resolve`: `wait_event` resolving a received payload — only possible
    while a connection exists;
  - `heartbeat_tick`: the event-loop heartbeat, guarded by
    `connection.is_some() && heartbeat_interval != -1`;
  - `do_destroy`: `destroy` with any close frame and recover flag.
`identify` and `send` mutate no state and need no constructor. -/
inductive ShardStep (opts : WebSocketWorkerOptions) : WebSocketShard → WebSocketShard → Prop where
  | connect_start (st : WebSocketShard) (now : Int) :
      st.status = .Idle →
      ShardStep opts st { st with started_at := now, status := .Connecting }
  | open_ok (st : WebSocketShard) :
      st.status = .Connecting →
      ShardStep opts st (connect_open_ok st)
  | resolve (st : WebSocketShard) (e : GatewayReceivePayload) (now jitter : Int) :
      st.connection.isSome →
      ShardStep opts st (resolve_event opts now jitter st e).1
  | heartbeat_tick (st : WebSocketShard) (now : Int) :
      st.connection.isSome →
      st.heartbeat_interval ≠ -1 →
      ShardStep opts st (heartbeat st false now).1
  | do_destroy (st : WebSocketShard) (recover : Option Bool) :
      ShardStep opts st (destroy st recover).1

/-- States a shard spawned as `WebSocketShard::new id t` can reach. -/
def ReachableFrom (opts : WebSocketWorkerOptions) (id : Nat) (t : Int)
    (st : WebSocketShard) : Prop :=
  Relation.ReflTransGen (ShardStep opts) (WebSocketShard.new id t) st

/-- The state invariants that do hold of every reachable shard state:
Idle implies no connection and `heartbeat_interval = -1`; Ready implies a
connection exists. -/
def ShardInv (st : WebSocketShard) : Prop :=
  (st.status = .Idle → st.connection = none ∧ st.heartbeat_interval = -1) ∧
  (st.status = .Ready → st.connection.isSome)

/- ===== Manager (rucord_ws/src/websocket_manager.rs) ===== -/

/-- `SessionStartLimitObject`. -/
structure SessionStartLimitObject where
  total : Nat
  remaining : Nat
  reset_after : Nat
  max_concurrency : Nat
deriving DecidableEq

/-- `GatewayBotObject`. -/
structure GatewayBotObject where
  url : String
  shards : Nat
  session_start_limit : SessionStartLimitObject
deriving DecidableEq

/-- `WebSocketError` (rucord_ws/src/error.rs; wrapped error payloads reduced
to plain data). -/
inductive WebSocketError where
  | Request (reason : String)
  | Shard (e : ShardError)
  | NotEnoughSessionsRemaining (remaining : Nat) (shards : Nat)
  | Json (reason : String)
deriving DecidableEq

/-- `slice::chunks`: consecutive chunks of size `n` (`n = 0` is a Rust panic;
the manager always calls it with `max_concurrency`). -/
def chunked (n : Nat) : List α → List (List α)
  | [] => []
  | x :: xs =>
    if _h : n = 0 then []
    else (x :: xs).take n :: chunked n ((x :: xs).drop n)
termination_by xs => xs.length
decreasing_by
  simp only [List.length_drop, List.length_cons]
  omega

/-- The side effects `WebSocketManager::connect` performs after passing the
capacity gate: spawning one worker (and with it one shard event loop) per
shard id, grouped into buckets of `max_concurrency`, then connecting each
bucket. -/
inductive ManagerAction where
  | spawn_worker (id : Nat)
  | bucket_connect (ids : List Nat)
deriving DecidableEq

/-- `WebSocketManager::connect`, after `fetch_gateway_info` produced `cap`:
fails with `NotEnoughSessionsRemaining(remaining, shards)` when
`shards > session_start_limit.remaining`, before any worker is spawned or
any bucket (hence any WebSocket) is connected; otherwise spawns the
partitioned workers and connects every bucket. -/
def manager_connect (cap : GatewayBotObject) : Except WebSocketError (List ManagerAction) :=
  if cap.shards > cap.session_start_limit.remaining then
    .error (.NotEnoughSessionsRemaining cap.session_start_limit.remaining cap.shards)
  else
    let shard_ids := List.range cap.shards
    let buckets := chunked cap.session_start_limit.max_concurrency shard_ids
    .ok ((buckets.map (fun ids => ids.map ManagerAction.spawn_worker)).flatten
      ++ buckets.map ManagerAction.bucket_connect)

/- ===== Concrete fixtures for witnesses and counterexamples ===== -/

/-- A concrete worker configuration. -/
def opts_fix : WebSocketWorkerOptions :=
  { gateway_url := "wss://gateway.test"
    gateway_shards := 1
    token := "tok"
    identify_properties := { os := "linux", browser := "rucord", device := "linux" }
    intents := 512 }

/-- A concrete established session whose resume URL differs from the capacity
URL of `opts_fix`. -/
def session_fix : Session :=
  { id := "S", shard_id := 0, resume_url := "wss://resume.test", shard_count := 1, sequence := 1 }

/-- An Idle shard that already holds `session_fix`. -/
def shard_with_session : WebSocketShard :=
  { WebSocketShard.new 0 0 with session := some session_fix }

/-- A shard mid-connection that has sent a heartbeat and not yet received the
ack (`is_ack = false`), with its next heartbeat overdue at `now = 50000`. -/
def shard_awaiting_ack : WebSocketShard :=
  { id := 0
    status := .Connecting
    session := none
    connection := some ()
    started_at := 0
    last_heartbeat := 0
    heartbeat_interval := 45000
    next_heartbeat := 45000
    is_ack := false }

/-- The state of a fresh shard after `connect` set `Connecting` but
`WebSocket::create` failed: still no connection. -/
def shard_conn_fail : WebSocketShard :=
  { WebSocketShard.new 0 0 with started_at := 0, status := WebSocketShardStatus.Connecting }

/-- The state reached when, during the handshake, the server sends a RESUMED
dispatch before anything else: `Ready` with no session and no interval. -/
def shard_resumed_early : WebSocketShard :=
  (resolve_event opts_fix 0 0 (connect_open_ok shard_conn_fail) (.Dispatch (1, .Resume))).1

/-- Concrete READY data. -/
def ready_fix : ReadyData :=
  { v := 10
    user := .obj []
    guilds := []
    session_id := "S"
    resume_gateway_url := "wss://resume.test"
    shard := none
    application := .obj [] }

/-- A concrete Identify payload. -/
def identify_fix : IdentifyData := identify_data opts_fix 0

/-- The capacity of spec scenario F: 4 shards recommended, 1 session left. -/
def cap_fix : GatewayBotObject :=
  { url := "wss://gateway.test"
    shards := 4
    session_start_limit :=
      { total := 1000, remaining := 1, reset_after := 3600000, max_concurrency := 1 } }

/- ===== Theorems ===== -/

/- == IdentifyQueue == -/

theorem wait_for_identify_permits_zero (q : IdentifyQueue) (K : Nat) (t : Int)
    (h : q.permits = 0) : wait_for_identify q K t = none := by
  obtain ⟨p, st⟩ := q
  simp only at h
  subst h
  rfl

theorem wait_for_identify_some_permits (q q' : IdentifyQueue) (K : Nat) (t r : Int)
    (h : wait_for_identify q K t = some (q', r)) : q'.permits + 1 = q.permits := by
  obtain ⟨p, st⟩ := q
  cases p with
  | zero => simp [wait_for_identify] at h
  | succ p =>
    simp only [wait_for_identify] at h
    split at h
    · split at h
      · injection h with h'
        injection h' with h1 h2
        subst h1
        rfl
      · injection h with h'
        injection h' with h1 h2
        subst h1
        rfl
    · injection h with h'
      injection h' with h1 h2
      subst h1
      rfl

theorem runQueue_length_le_permits (K : Nat) (ts : List Int) :
    ∀ q : IdentifyQueue, (runQueue q K ts).length ≤ q.permits := by
  induction ts with
  | nil => intro q; simp [runQueue]
  | cons t ts ih =>
    intro q
    cases hw : wait_for_identify q K t with
    | none =>
      simp only [runQueue, hw]
      exact ih q
    | some qr =>
      obtain ⟨q', r⟩ := qr
      have hp := wait_for_identify_some_permits q q' K t r hw
      have hi := ih q'
      simp only [runQueue, hw, List.length_cons]
      omega


theorem countWindow_le_length (w : Int) (rs : List Int) : countWindow w rs ≤ rs.length :=
  List.length_filter_le _ _

/-- C1: across the whole run of any schedule of callers through a freshly
constructed queue, every 5-second window sees at most `max_concurrency`
slot releases (the semaphore serializes callers and, with its single permit
never restored, at most one slot is ever released at all); and any caller
that finds `remaining = 0` with less than five seconds elapsed in the window
is released only after sleeping the remaining `5 s − elapsed`. -/
theorem identify_rate_cap (K : Nat) (t0 w : Int) (arrivals : List Int) (hK : 1 ≤ K) :
    countWindow w (runQueue (IdentifyQueue.new t0) K arrivals) ≤ K ∧
    (∀ (q q' : IdentifyQueue) (now r : Int),
      wait_for_identify q K now = some (q', r) →
      q.state.remaining = 0 →
      now - q.state.reset_time < FIVE_SECOND →
      FIVE_SECOND - (now - q.state.reset_time) ≤ r - now) := by
  constructor
  · calc countWindow w (runQueue (IdentifyQueue.new t0) K arrivals)
        ≤ (runQueue (IdentifyQueue.new t0) K arrivals).length :=
          countWindow_le_length _ _
      _ ≤ (IdentifyQueue.new t0).permits := runQueue_length_le_permits _ _ _
      _ = 1 := rfl
      _ ≤ K := hK
  · intro q q' now r hcall hrem hfresh
    obtain ⟨p, st⟩ := q
    cases p with
    | zero => simp [wait_for_identify] at hcall
    | succ p =>
      change st.remaining = 0 at hrem
      change now - st.reset_time < FIVE_SECOND at hfresh
      simp only [wait_for_identify] at hcall
      rw [if_pos hrem, if_pos hfresh] at hcall
      injection hcall with h'
      injection h' with h1 h2
      change FIVE_SECOND - (now - st.reset_time) ≤ r - now
      omega

/-- C1 witness: the rate cap and delay bound instantiated at
`max_concurrency = 1`, a queue created at time 0, two callers, window start 0. -/
theorem identify_rate_cap_witness :
    countWindow 0 (runQueue (IdentifyQueue.new 0) 1 [0, 1000]) ≤ 1 ∧
    (∀ (q q' : IdentifyQueue) (now r : Int),
      wait_for_identify q 1 now = some (q', r) →
      q.state.remaining = 0 →
      now - q.state.reset_time < FIVE_SECOND →
      FIVE_SECOND - (now - q.state.reset_time) ≤ r - now) :=
  identify_rate_cap 1 0 0 [0, 1000] (by decide)

/-- C2: the first `wait_for_identify` call on a fresh queue (here with
`max_concurrency = 2`) completes immediately — but it forgets the single
semaphore permit, so the resulting queue has zero permits and every
subsequent caller's `acquire` blocks forever, contradicting the claim that
the mutual exclusion becomes available again for the next queued caller. -/
theorem identify_queue_single_use :
    wait_for_identify (IdentifyQueue.new 0) 2 0 =
      some ({ permits := 0, state := { remaining := 1, reset_time := 0 } }, 0) ∧
    (∀ (K : Nat) (t : Int),
      wait_for_identify { permits := 0, state := { remaining := 1, reset_time := 0 } } K t =
        none) := by
  constructor
  · show wait_for_identify ⟨1, 0, 0 - FIVE_SECOND⟩ 2 0 = _
    norm_num [wait_for_identify, FIVE_SECOND, u64_sub_one, IdentifyQueue.new]
  · intro K t
    rfl

theorem u64_sub_one_eq (K : Nat) (h1 : 1 ≤ K) (h2 : K < 2 ^ 64) :
    u64_sub_one K = K - 1 := by
  unfold u64_sub_one
  have : K + (2 ^ 64 - 1) = 2 ^ 64 + (K - 1) := by omega
  rw [this, Nat.add_mod_left, Nat.mod_eq_of_lt (by omega)]

/-- C10: a freshly constructed queue has `remaining = 0` and
`reset_time = now − 5 s`, so the first `wait_for_identify` never sleeps:
at any instant `now` at or after construction it is released immediately
(release instant = `now`), the window start is reset to `now`, `remaining`
is refreshed to `max_concurrency`, and one slot is consumed. -/
theorem fresh_queue_first_call (t0 now : Int) (K : Nat)
    (hstart : t0 ≤ now) (hK1 : 1 ≤ K) (hK2 : K < 2 ^ 64) :
    wait_for_identify (IdentifyQueue.new t0) K now =
      some ({ permits := 0, state := { remaining := K - 1, reset_time := now } }, now) := by
  have hfive : ¬(now - (t0 - FIVE_SECOND) < FIVE_SECOND) := by
    simp only [FIVE_SECOND]; omega
  simp only [IdentifyQueue.new, wait_for_identify, hfive, if_true, if_false,
    u64_sub_one_eq K hK1 hK2]

/-- C10 witness: the first call on a queue built at time 0, with
`max_concurrency = 1`, executed at time 0. -/
theorem fresh_queue_first_call_witness :
    wait_for_identify (IdentifyQueue.new 0) 1 0 =
      some ({ permits := 0, state := { remaining := 0, reset_time := 0 } }, 0) :=
  fresh_queue_first_call 0 0 1 (by decide) (by decide) (by decide)

/- == Payload parsing and serialization == -/

/-- C6: processing a Dispatch frame is NOT total on recognized event names:
the frame `{op:0, s:2, t:"MESSAGE_CREATE", d:{}}` — a recognized
SCREAMING_SNAKE_CASE event — drives `DispatchPayload::from_payload` into its
`unimplemented!()` arm, aborting instead of reaching the dispatch callback.
Only READY and RESUMED (and unrecognized names, mapped to `Unknown`) parse. -/
theorem dispatch_recognized_event_panics :
    unpack (Json.obj
      [("op", .num 0), ("s", .num 2), ("t", .str "MESSAGE_CREATE"), ("d", .obj [])]) =
      .error (.unimplementedEvent .MessageCreate) := by
  rfl

/-- C7 counterexample: a serialized Identify payload, fed back to the inbound
parser, does not yield any payload at all — `unpack` hits the
`unreachable!("not receive op")` arm, refuting the round-trip claim. -/
theorem serialize_identify_unparseable_cex :
    unpack (serialize_send (.Identify identify_fix)) = .error .notReceiveOp := by
  rfl

/-- C7 (amended): every outbound payload serializes to `{op, d}` with the
opcode of its variant, but the inbound parser accepts only receive opcodes:
a serialized Heartbeat parses to `HeartbeatRequest` (the inbound reading of
opcode 1, dropping the sequence), and every other serialized outbound payload
aborts the parser (`unreachable!("not receive op")`). -/
theorem send_payload_serialize_parse (p : GatewaySendPayload) :
    (serialize_send p).field "op" = some (.num p.op) ∧
    (match p with
     | .Heartbeat _ => unpack (serialize_send p) = .ok .HeartbeatRequest
     | _ => unpack (serialize_send p) = .error .notReceiveOp) := by
  cases p <;> exact ⟨rfl, rfl⟩

/- == Shard: connect/identify (C3) == -/

/-- C3 (amended): `connect()` on an Idle shard always opens the WebSocket to
the capacity URL (`options.gateway_info.url`) — the session's
`resume_gateway_url` is never consulted — and the post-HELLO step is always
`identify()`, which sends an Identify payload whether or not a Session
exists; no Resume is sent during `connect()`. -/
theorem connect_always_capacity_url_and_identify
    (opts : WebSocketWorkerOptions) (st : WebSocketShard) (now : Int)
    (hidle : st.status = .Idle) :
    connect_start opts st now =
      .ok ({ st with started_at := now, status := .Connecting }, opts.gateway_url) ∧
    (∀ st' : WebSocketShard,
      identify opts st' = (st', [.send (.Identify (identify_data opts st'.id))])) := by
  refine ⟨?_, fun _ => rfl⟩
  simp [connect_start, hidle]

/-- C3 witness: the amended behavior at a concrete Idle shard that holds a
session. -/
theorem connect_always_capacity_url_and_identify_witness :
    connect_start opts_fix shard_with_session 0 =
      .ok ({ shard_with_session with started_at := 0, status := .Connecting },
           opts_fix.gateway_url) ∧
    (∀ st' : WebSocketShard,
      identify opts_fix st' = (st', [.send (.Identify (identify_data opts_fix st'.id))])) :=
  connect_always_capacity_url_and_identify opts_fix shard_with_session 0 rfl

/-- C3 counterexample: a concrete Idle shard holding a session with
`resume_url = "wss://resume.test"` — `connect` dials the capacity URL
`"wss://gateway.test"` (a different URL), and the post-HELLO send is an
Identify payload, not a Resume, although the session exists. -/
theorem connect_ignores_resume_url_cex :
    connect_start opts_fix shard_with_session 0 =
      .ok ({ shard_with_session with started_at := 0, status := .Connecting },
           "wss://gateway.test") ∧
    opts_fix.gateway_url ≠ session_fix.resume_url ∧
    shard_with_session.session = some session_fix ∧
    (identify opts_fix
        (connect_open_ok { shard_with_session with started_at := 0, status := .Connecting })).2 =
      [.send (.Identify identify_fix)] := by
  exact ⟨rfl, by decide, rfl, rfl⟩

/- == Shard: heartbeat without ack (C4) == -/

/-- C4 (amended): when the next scheduled heartbeat becomes due while
`is_ack` is still false from the previous heartbeat, the shard simply sends
another Heartbeat (with the current session sequence) on the same connection:
status, connection and interval are untouched, `is_ack` stays false, and no
destroy/reconnect happens — `is_ack` is never consulted anywhere. -/
theorem heartbeat_due_without_ack (st : WebSocketShard) (now : Int)
    (hconn : st.connection = some ()) (_hint : st.heartbeat_interval ≠ -1)
    (_hack : st.is_ack = false) (hdue : st.next_heartbeat < now - st.last_heartbeat) :
    (heartbeat st false now).2 = [.send (.Heartbeat (st.session.map (·.sequence)))] ∧
    (heartbeat st false now).1.status = st.status ∧
    (heartbeat st false now).1.connection = some () ∧
    (heartbeat st false now).1.heartbeat_interval = st.heartbeat_interval ∧
    (heartbeat st false now).1.is_ack = false := by
  have hn : ¬(¬false ∧ now - st.last_heartbeat ≤ st.next_heartbeat) := by
    simp [not_le.mpr hdue]
  rw [heartbeat, if_neg hn]
  exact ⟨rfl, rfl, hconn, rfl, rfl⟩

/-- C4 witness: the amended behavior at a concrete shard with an overdue
heartbeat and `is_ack = false`. -/
theorem heartbeat_due_without_ack_witness :
    (heartbeat shard_awaiting_ack false 50000).2 =
      [.send (.Heartbeat (shard_awaiting_ack.session.map (·.sequence)))] ∧
    (heartbeat shard_awaiting_ack false 50000).1.status = shard_awaiting_ack.status ∧
    (heartbeat shard_awaiting_ack false 50000).1.connection = some () ∧
    (heartbeat shard_awaiting_ack false 50000).1.heartbeat_interval =
      shard_awaiting_ack.heartbeat_interval ∧
    (heartbeat shard_awaiting_ack false 50000).1.is_ack = false :=
  heartbeat_due_without_ack shard_awaiting_ack 50000 rfl (by decide) rfl (by decide)

/-- C4 counterexample: at a concrete shard whose next heartbeat is due while
`is_ack` is still false, the heartbeat routine sends another Heartbeat frame
and leaves the shard in its non-Idle state with its connection — it does not
transition to Idle, contradicting the zombied-connection claim. -/
theorem zombie_heartbeat_cex :
    (heartbeat shard_awaiting_ack false 50000).2 = [.send (.Heartbeat none)] ∧
    (heartbeat shard_awaiting_ack false 50000).1.status = .Connecting ∧
    (heartbeat shard_awaiting_ack false 50000).1.status ≠ .Idle ∧
    (heartbeat shard_awaiting_ack false 50000).1.connection = some () := by
  refine ⟨rfl, rfl, by decide, rfl⟩

/- == Manager capacity gate (C9) == -/

/-- C9: whenever the fetched capacity has `shards > session_start_limit.remaining`,
`WebSocketManager::connect` fails with `NotEnoughSessionsRemaining(remaining,
shards)` — and, failing before the spawn/connect phase, performs none of the
worker-spawning or bucket-connecting actions (no WebSocket is opened). -/
theorem manager_connect_capacity_gate (cap : GatewayBotObject)
    (h : cap.shards > cap.session_start_limit.remaining) :
    manager_connect cap =
      .error (.NotEnoughSessionsRemaining cap.session_start_limit.remaining cap.shards) ∧
    (∀ acts : List ManagerAction, manager_connect cap ≠ .ok acts) := by
  have he : manager_connect cap =
      .error (.NotEnoughSessionsRemaining cap.session_start_limit.remaining cap.shards) := by
    simp [manager_connect, h]
  refine ⟨he, fun acts hc => ?_⟩
  rw [he] at hc
  cases hc

/-- C9 witness: scenario F — `remaining = 1`, `shards = 4` yields
`NotEnoughSessionsRemaining(1, 4)` and no spawn/connect actions. -/
theorem manager_connect_capacity_gate_witness :
    manager_connect cap_fix = .error (.NotEnoughSessionsRemaining 1 4) ∧
    (∀ acts : List ManagerAction, manager_connect cap_fix ≠ .ok acts) :=
  manager_connect_capacity_gate cap_fix (by decide)

/- == Shard: clean identify handshake (C5) == -/

/-- C5 (amended): after a clean identify handshake — `connect` from Idle,
successful open, HELLO resolved (setting the interval and jittered first
heartbeat), Identify sent, then a READY dispatch — the Session is created
from the READY data, the `ready` callback and then the generic `dispatch`
callback fire with the READY data, but the shard's status is still
`Connecting`: the READY handler never sets `Ready` (only a RESUMED dispatch
does). -/
theorem clean_identify_handshake (opts : WebSocketWorkerOptions) (id : Nat)
    (t0 t now jitter : Int) (interval : Nat) (d : ReadyData) (s : Int) :
    connect_start opts (WebSocketShard.new id t0) t =
      .ok ({ WebSocketShard.new id t0 with started_at := t, status := .Connecting },
           opts.gateway_url) ∧
    ((identify opts
        (resolve_event opts now jitter
          (connect_open_ok
            { WebSocketShard.new id t0 with started_at := t, status := .Connecting })
          (.Hello interval)).1).2 =
      [.send (.Identify (identify_data opts id))]) ∧
    ((resolve_event opts now jitter
        (resolve_event opts now jitter
          (connect_open_ok
            { WebSocketShard.new id t0 with started_at := t, status := .Connecting })
          (.Hello interval)).1
        (.Dispatch (s, .Ready d))).1.session =
      some { id := d.session_id, resume_url := d.resume_gateway_url, sequence := s,
             shard_count := opts.gateway_shards, shard_id := id }) ∧
    ((resolve_event opts now jitter
        (resolve_event opts now jitter
          (connect_open_ok
            { WebSocketShard.new id t0 with started_at := t, status := .Connecting })
          (.Hello interval)).1
        (.Dispatch (s, .Ready d))).2 =
      [.readyCallback d, .dispatchCallback (.Ready d)]) ∧
    ((resolve_event opts now jitter
        (resolve_event opts now jitter
          (connect_open_ok
            { WebSocketShard.new id t0 with started_at := t, status := .Connecting })
          (.Hello interval)).1
        (.Dispatch (s, .Ready d))).1.status = .Connecting) := by
  have hs : ¬(s > s) := lt_irrefl s
  refine ⟨rfl, rfl, ?_, ?_, ?_⟩ <;>
    simp [resolve_event, connect_open_ok, WebSocketShard.new, advance_sequence,
      session_of_ready, hs]

/-- C5 counterexample: running the concrete clean-identify handshake
(HELLO 45000, then READY with `ready_fix` at sequence 1) leaves the shard's
status `Connecting`, not `Ready`, even though the session was created and the
`ready` callback fired — refuting the claimed `Idle → Connecting → Ready`
transition. -/
theorem ready_leaves_status_connecting_cex :
    ((resolve_event opts_fix 0 0
        (resolve_event opts_fix 0 0 (connect_open_ok shard_conn_fail) (.Hello 45000)).1
        (.Dispatch (1, .Ready ready_fix))).1.status ≠ WebSocketShardStatus.Ready) ∧
    ((resolve_event opts_fix 0 0
        (resolve_event opts_fix 0 0 (connect_open_ok shard_conn_fail) (.Hello 45000)).1
        (.Dispatch (1, .Ready ready_fix))).1.status = .Connecting) ∧
    ((resolve_event opts_fix 0 0
        (resolve_event opts_fix 0 0 (connect_open_ok shard_conn_fail) (.Hello 45000)).1
        (.Dispatch (1, .Ready ready_fix))).1.session =
      some { id := "S", shard_id := 0, resume_url := "wss://resume.test",
             shard_count := 1, sequence := 1 }) ∧
    ((resolve_event opts_fix 0 0
        (resolve_event opts_fix 0 0 (connect_open_ok shard_conn_fail) (.Hello 45000)).1
        (.Dispatch (1, .Ready ready_fix))).2 =
      [.readyCallback ready_fix, .dispatchCallback (.Ready ready_fix)]) := by
  refine ⟨by decide, rfl, rfl, rfl⟩

/- == Shard: reachable-state invariants (C8) == -/

theorem heartbeat_fields (st : WebSocketShard) (requested : Bool) (now : Int) :
    (heartbeat st requested now).1.status = st.status ∧
    (heartbeat st requested now).1.connection = st.connection ∧
    (heartbeat st requested now).1.heartbeat_interval = st.heartbeat_interval := by
  rw [heartbeat]
  split
  · exact ⟨rfl, rfl, rfl⟩
  · exact ⟨rfl, rfl, rfl⟩

theorem advance_sequence_fields (st : WebSocketShard) (s : Int) :
    (advance_sequence st s).status = st.status ∧
    (advance_sequence st s).connection = st.connection ∧
    (advance_sequence st s).heartbeat_interval = st.heartbeat_interval := by
  rw [advance_sequence]
  cases st.session with
  | none => exact ⟨rfl, rfl, rfl⟩
  | some sess =>
    dsimp only
    by_cases hgt : s > sess.sequence
    · rw [if_pos hgt]
      exact ⟨rfl, rfl, rfl⟩
    · rw [if_neg hgt]
      exact ⟨rfl, rfl, rfl⟩

theorem destroy_preserves_inv (st : WebSocketShard) (recover : Option Bool)
    (hs : ShardInv st) : ShardInv (destroy st recover).1 := by
  rw [destroy]
  split
  · exact hs
  · cases hc : st.connection with
    | none => simp only [hc]; exact hs
    | some u =>
      simp only [hc]
      exact ⟨fun _ => ⟨rfl, rfl⟩, fun h => (nomatch h)⟩

theorem resolve_preserves_inv (opts : WebSocketWorkerOptions)
    (st : WebSocketShard) (e : GatewayReceivePayload) (now jitter : Int)
    (hconn : st.connection.isSome) (hs : ShardInv st) :
    ShardInv (resolve_event opts now jitter st e).1 := by
  have hnotidle : st.status ≠ .Idle := by
    intro h
    rcases hs.1 h with ⟨hc, -⟩
    rw [hc] at hconn
    exact Bool.noConfusion hconn
  cases e with
  | Hello i =>
    exact ⟨fun h => absurd h hnotidle, fun _ => hconn⟩
  | HeartbeatRequest =>
    obtain ⟨h1, h2, h3⟩ := heartbeat_fields st true now
    dsimp only [resolve_event]
    constructor
    · intro h
      rw [h1] at h
      exact absurd h hnotidle
    · intro _
      rw [show ((heartbeat st true now).1.connection) = st.connection from h2]
      exact hconn
  | HeartbeatAck =>
    exact ⟨fun h => absurd h hnotidle, fun _ => hconn⟩
  | Reconnect =>
    exact destroy_preserves_inv st (some true) hs
  | InvalidSession b =>
    dsimp only [resolve_event]
    split
    · next hb =>
      rw [resume]
      rcases hcv : st.connection with - | u
      · rw [hcv] at hconn
        exact Bool.noConfusion hconn
      · rcases hsv : st.session with - | sess
        · rw [hsv] at hb
          simp at hb
        · exact ⟨fun h => (nomatch h), fun h => (nomatch h)⟩
    · exact destroy_preserves_inv st (some false) hs
  | UnknownOp op m =>
    exact hs
  | Dispatch sp =>
    obtain ⟨s, payload⟩ := sp
    cases payload with
    | Ready data =>
      obtain ⟨f1, f2, f3⟩ := advance_sequence_fields
        (if st.session.isNone then
          { st with session := some (session_of_ready opts st.id s data) }
         else st) s
      dsimp only [resolve_event]
      constructor
      · intro h
        rw [f1] at h
        split at h
        · exact absurd h hnotidle
        · exact absurd h hnotidle
      · intro _
        rw [Option.isSome_iff_exists] at hconn ⊢
        rw [f2]
        split
        · exact hconn
        · exact hconn
    | Resume =>
      obtain ⟨f1, f2, f3⟩ := advance_sequence_fields { st with status := .Ready } s
      dsimp only [resolve_event]
      constructor
      · intro h
        rw [f1] at h
        exact (nomatch h)
      · intro _
        rw [Option.isSome_iff_exists] at hconn ⊢
        rw [f2]
        exact hconn
    | _ =>
      obtain ⟨f1, f2, f3⟩ := advance_sequence_fields st s
      dsimp only [resolve_event]
      constructor
      · intro h
        rw [f1] at h
        exact absurd h hnotidle
      · intro _
        rw [Option.isSome_iff_exists] at hconn ⊢
        rw [f2]
        exact hconn

theorem shardStep_preserves_inv (opts : WebSocketWorkerOptions)
    {a b : WebSocketShard} (hstep : ShardStep opts a b) (ha : ShardInv a) :
    ShardInv b := by
  cases hstep with
  | connect_start now hidle =>
    exact ⟨(fun h => nomatch h), (fun h => nomatch h)⟩
  | open_ok hc =>
    exact ⟨(fun h => nomatch (hc.symm.trans h)), fun _ => rfl⟩
  | resolve e now jitter hconn =>
    exact resolve_preserves_inv opts a e now jitter hconn ha
  | heartbeat_tick now hconn hint =>
    obtain ⟨h1, h2, h3⟩ := heartbeat_fields a false now
    have hnotidle : a.status ≠ .Idle := by
      intro h
      rcases ha.1 h with ⟨hc, -⟩
      rw [hc] at hconn
      exact Bool.noConfusion hconn
    constructor
    · intro h
      rw [h1] at h
      exact absurd h hnotidle
    · intro _
      rw [Option.isSome_iff_exists] at hconn ⊢
      rw [h2]
      exact hconn
  | do_destroy recover =>
    exact destroy_preserves_inv a recover ha

/-- C8 (amended): in every reachable shard state, `Idle` implies no
connection and `heartbeat_interval = -1`, and `Ready` implies a connection
exists. The claim's further implications fail (see the counterexample): a
failed WebSocket open leaves the shard `Connecting` with no connection, and
a premature RESUMED dispatch yields `Ready` with no session and
`heartbeat_interval = -1`. -/
theorem shard_reachable_invariants (opts : WebSocketWorkerOptions) (id : Nat) (t : Int)
    (st : WebSocketShard) (h : ReachableFrom opts id t st) :
    (st.status = .Idle → st.connection = none ∧ st.heartbeat_interval = -1) ∧
    (st.status = .Ready → st.connection.isSome) := by
  induction h with
  | refl => exact ⟨fun _ => ⟨rfl, rfl⟩, fun h => nomatch h⟩
  | tail hr hstep ih => exact shardStep_preserves_inv opts hstep ih

/-- C8 witness: the invariants at the initial (reachable) state of shard 0. -/
theorem shard_reachable_invariants_witness :
    ((WebSocketShard.new 0 0).status = .Idle →
      (WebSocketShard.new 0 0).connection = none ∧
      (WebSocketShard.new 0 0).heartbeat_interval = -1) ∧
    ((WebSocketShard.new 0 0).status = .Ready →
      ((WebSocketShard.new 0 0).connection).isSome) :=
  shard_reachable_invariants opts_fix 0 0 (WebSocketShard.new 0 0)
    Relation.ReflTransGen.refl

/-- C8 counterexample: two reachable states violate the claimed invariants.
After `connect` transitions a fresh shard to `Connecting` and the WebSocket
open fails, the shard is `Connecting` with `connection = none`; and when the
server sends a RESUMED dispatch right after the open, the shard is `Ready`
with `session = none` and `heartbeat_interval = -1` (not `> 0`). -/
theorem shard_state_invariants_cex :
    ReachableFrom opts_fix 0 0 shard_conn_fail ∧
    shard_conn_fail.status = .Connecting ∧
    shard_conn_fail.connection = none ∧
    ReachableFrom opts_fix 0 0 shard_resumed_early ∧
    shard_resumed_early.status = .Ready ∧
    shard_resumed_early.session = none ∧
    shard_resumed_early.heartbeat_interval = -1 := by
  have h1 : ShardStep opts_fix (WebSocketShard.new 0 0) shard_conn_fail :=
    ShardStep.connect_start (WebSocketShard.new 0 0) 0 rfl
  have h2 : ShardStep opts_fix shard_conn_fail (connect_open_ok shard_conn_fail) :=
    ShardStep.open_ok shard_conn_fail rfl
  have h3 : ShardStep opts_fix (connect_open_ok shard_conn_fail) shard_resumed_early :=
    ShardStep.resolve (connect_open_ok shard_conn_fail) (.Dispatch (1, .Resume)) 0 0 rfl
  exact ⟨Relation.ReflTransGen.single h1, rfl, rfl,
    ((Relation.ReflTransGen.single h1).tail h2).tail h3, rfl, rfl, rfl⟩

end Rucord
